import Mathlib

/-!
Shallow embedding of `pg-inspector` (`inspect.go`): nullable SQL domain
types, the three information-schema record types, the whitelist-filtered
listing queries, and the `main` introspection pipeline modelled as an
event trace over an abstract catalog environment.
-/

set_option maxHeartbeats 1000000

namespace PgInspector

/-- Embeds `dbr.NullInt64` (a nullable 64-bit integer with a presence
flag `Valid`); the payload is modelled as `Int`, since the program only
stores and compares it. -/
structure NullInt64 where
  int64 : Int
  valid : Bool
deriving DecidableEq, Repr

/-- Embeds `dbr.NullString` (a nullable string with a presence flag). -/
structure NullString where
  string : String
  valid : Bool
deriving DecidableEq, Repr

/-- Embeds `dbr.NullTime` (a nullable timestamp); the instant is
modelled as an abstract `Int`. -/
structure NullTime where
  time : Int
  valid : Bool
deriving DecidableEq, Repr

/-- Embeds `type CardinalNumber dbr.NullInt64` from `inspect.go`. -/
abbrev CardinalNumber := NullInt64

/-- Embeds `type CharacterData dbr.NullString` from `inspect.go`. -/
abbrev CharacterData := NullString

/-- Embeds `type SQLIdentifier dbr.NullString` from `inspect.go`. -/
abbrev SQLIdentifier := NullString

/-- Embeds `type TimeStamp dbr.NullTime` from `inspect.go`. -/
abbrev TimeStamp := NullTime

/-- Embeds `type YesOrNo dbr.NullString` from `inspect.go`. -/
abbrev YesOrNo := NullString

/-- Modelled from the spec: the driver-side decode (`Scan`) of a
possibly-NULL integer catalog value into `dbr.NullInt64`, which is not
under `src/` (it lives in the database driver). A SQL NULL (`none`)
sets the presence flag false; any non-null value is stored with the
flag true. -/
def NullInt64.scan : Option Int → NullInt64
  | none => ⟨0, false⟩
  | some v => ⟨v, true⟩

/-- Modelled from the spec: driver-side decode of a possibly-NULL text
catalog value into `dbr.NullString`. -/
def NullString.scan : Option String → NullString
  | none => ⟨"", false⟩
  | some s => ⟨s, true⟩

/-- Modelled from the spec: driver-side decode of a possibly-NULL
timestamp catalog value into `dbr.NullTime`. -/
def NullTime.scan : Option Int → NullTime
  | none => ⟨0, false⟩
  | some t => ⟨t, true⟩

/-- The spec's `IsNull` observer: true when the source value was SQL
NULL (the presence flag is down). -/
def NullInt64.isNull (x : NullInt64) : Bool := !x.valid

/-- The spec's `IsNull` observer for nullable strings. -/
def NullString.isNull (x : NullString) : Bool := !x.valid

/-- The spec's `IsNull` observer for nullable timestamps. -/
def NullTime.isNull (x : NullTime) : Bool := !x.valid

/-- Decode of a catalog value into `CardinalNumber`. -/
def CardinalNumber.scan (v : Option Int) : CardinalNumber := NullInt64.scan v

/-- Decode of a catalog value into `CharacterData`. -/
def CharacterData.scan (v : Option String) : CharacterData := NullString.scan v

/-- Decode of a catalog value into `SQLIdentifier`. -/
def SQLIdentifier.scan (v : Option String) : SQLIdentifier := NullString.scan v

/-- Decode of a catalog value into `TimeStamp`. -/
def TimeStamp.scan (v : Option Int) : TimeStamp := NullTime.scan v

/-- Decode of a catalog value into `YesOrNo`. -/
def YesOrNo.scan (v : Option String) : YesOrNo := NullString.scan v

/-- Embeds the `TSchemata` record of `inspect.go` (one row of
`information_schema.schemata`). -/
structure TSchemata where
  CatalogName : SQLIdentifier
  SchemaName : SQLIdentifier
  SchemaOwner : SQLIdentifier
  DefaultCharacterSetCatalog : SQLIdentifier
  DefaultCharacterSetSchema : SQLIdentifier
  DefaultCharacterSetName : SQLIdentifier
  SQLPath : CharacterData
deriving DecidableEq, Repr

/-- Embeds the `TTables` record of `inspect.go` (one row of
`information_schema.tables`). -/
structure TTables where
  TableCatalog : SQLIdentifier
  TableSchema : SQLIdentifier
  TableName : SQLIdentifier
  TableType : CharacterData
  SelfReferencingColumnName : SQLIdentifier
  ReferenceGeneration : CharacterData
  UserDefinedTypeCatalog : SQLIdentifier
  UserDefinedTypeSchema : SQLIdentifier
  UserDefinedTypeName : SQLIdentifier
  IsInsertableInto : YesOrNo
  IsTyped : YesOrNo
  CommitAction : CharacterData
deriving DecidableEq, Repr

/-- Embeds the `TColumns` record of `inspect.go` (one row of
`information_schema.columns`). -/
structure TColumns where
  TableCatalog : SQLIdentifier
  TableSchema : SQLIdentifier
  TableName : SQLIdentifier
  ColumnName : SQLIdentifier
  OrdinalPosition : CardinalNumber
  ColumnDefault : CharacterData
  IsNullable : YesOrNo
  DataType : CharacterData
  CharacterMaximumLength : CardinalNumber
  CharacterOctetLength : CardinalNumber
  NumericPrecision : CardinalNumber
  NumericPrecisionRadix : CardinalNumber
  NumericScale : CardinalNumber
  DatetimePrecision : CardinalNumber
  IntervalType : CharacterData
  IntervalPrecision : CardinalNumber
  CharacterSetCatalog : SQLIdentifier
  CharacterSetSchema : SQLIdentifier
  CharacterSetName : SQLIdentifier
  CollationCatalog : SQLIdentifier
  CollationSchema : SQLIdentifier
  CollationName : SQLIdentifier
  DomainCatalog : SQLIdentifier
  DomainSchema : SQLIdentifier
  DomainName : SQLIdentifier
  UdtCatalog : SQLIdentifier
  UdtSchema : SQLIdentifier
  UdtName : SQLIdentifier
  ScopeCatalog : SQLIdentifier
  ScopeSchema : SQLIdentifier
  ScopeName : SQLIdentifier
  MaximumCardinality : CardinalNumber
  DtdIdentifier : SQLIdentifier
  IsSelfReferencing : YesOrNo
  IsIdentity : YesOrNo
  IdentityGeneration : CharacterData
  IdentityStart : CharacterData
  IdentityIncrement : CharacterData
  IdentityMaximum : CharacterData
  IdentityMinimum : CharacterData
  IdentityCycle : YesOrNo
  IsGenerated : CharacterData
  GenerationExpression : CharacterData
  IsUpdatable : YesOrNo
deriving DecidableEq, Repr

/-- One field of a record type together with the `db:"..."` struct tag
it carries in the source, if any (`none` when the Go field has no tag). -/
structure FieldSpec where
  fieldName : String
  dbTag : Option String
deriving DecidableEq, Repr

/-- The fields of `TSchemata` with their struct tags, transcribed from
`inspect.go` lines 41-49: only `CatalogName` carries a `db:` tag. -/
def tSchemataFields : List FieldSpec :=
  [⟨"CatalogName", some "catalog_name"⟩,
   ⟨"SchemaName", none⟩,
   ⟨"SchemaOwner", none⟩,
   ⟨"DefaultCharacterSetCatalog", none⟩,
   ⟨"DefaultCharacterSetSchema", none⟩,
   ⟨"DefaultCharacterSetName", none⟩,
   ⟨"SQLPath", none⟩]

/-- The fields of `TTables` with their struct tags, transcribed from
`inspect.go` lines 52-65. -/
def tTablesFields : List FieldSpec :=
  [⟨"TableCatalog", some "table_catalog"⟩,
   ⟨"TableSchema", some "table_schema"⟩,
   ⟨"TableName", some "table_name"⟩,
   ⟨"TableType", some "table_type"⟩,
   ⟨"SelfReferencingColumnName", some "self_referencing_column_name"⟩,
   ⟨"ReferenceGeneration", some "reference_generation"⟩,
   ⟨"UserDefinedTypeCatalog", some "user_defined_type_catalog"⟩,
   ⟨"UserDefinedTypeSchema", some "user_defined_type_schema"⟩,
   ⟨"UserDefinedTypeName", some "user_defined_type_name"⟩,
   ⟨"IsInsertableInto", some "is_insertable_into"⟩,
   ⟨"IsTyped", some "is_typed"⟩,
   ⟨"CommitAction", some "commit_action"⟩]

/-- The fields of `TColumns` with their struct tags, transcribed from
`inspect.go` lines 67-112. -/
def tColumnsFields : List FieldSpec :=
  [⟨"TableCatalog", some "table_catalog"⟩,
   ⟨"TableSchema", some "table_schema"⟩,
   ⟨"TableName", some "table_name"⟩,
   ⟨"ColumnName", some "column_name"⟩,
   ⟨"OrdinalPosition", some "ordinal_position"⟩,
   ⟨"ColumnDefault", some "column_default"⟩,
   ⟨"IsNullable", some "is_nullable"⟩,
   ⟨"DataType", some "data_type"⟩,
   ⟨"CharacterMaximumLength", some "character_maximum_length"⟩,
   ⟨"CharacterOctetLength", some "character_octet_length"⟩,
   ⟨"NumericPrecision", some "numeric_precision"⟩,
   ⟨"NumericPrecisionRadix", some "numeric_precision_radix"⟩,
   ⟨"NumericScale", some "numeric_scale"⟩,
   ⟨"DatetimePrecision", some "datetime_precision"⟩,
   ⟨"IntervalType", some "interval_type"⟩,
   ⟨"IntervalPrecision", some "interval_precision"⟩,
   ⟨"CharacterSetCatalog", some "character_set_catalog"⟩,
   ⟨"CharacterSetSchema", some "character_set_schema"⟩,
   ⟨"CharacterSetName", some "character_set_name"⟩,
   ⟨"CollationCatalog", some "collation_catalog"⟩,
   ⟨"CollationSchema", some "collation_schema"⟩,
   ⟨"CollationName", some "collation_name"⟩,
   ⟨"DomainCatalog", some "domain_catalog"⟩,
   ⟨"DomainSchema", some "domain_schema"⟩,
   ⟨"DomainName", some "domain_name"⟩,
   ⟨"UdtCatalog", some "udt_catalog"⟩,
   ⟨"UdtSchema", some "udt_schema"⟩,
   ⟨"UdtName", some "udt_name"⟩,
   ⟨"ScopeCatalog", some "scope_catalog"⟩,
   ⟨"ScopeSchema", some "scope_schema"⟩,
   ⟨"ScopeName", some "scope_name"⟩,
   ⟨"MaximumCardinality", some "maximum_cardinality"⟩,
   ⟨"DtdIdentifier", some "dtd_identifier"⟩,
   ⟨"IsSelfReferencing", some "is_self_referencing"⟩,
   ⟨"IsIdentity", some "is_identity"⟩,
   ⟨"IdentityGeneration", some "identity_generation"⟩,
   ⟨"IdentityStart", some "identity_start"⟩,
   ⟨"IdentityIncrement", some "identity_increment"⟩,
   ⟨"IdentityMaximum", some "identity_maximum"⟩,
   ⟨"IdentityMinimum", some "identity_minimum"⟩,
   ⟨"IdentityCycle", some "identity_cycle"⟩,
   ⟨"IsGenerated", some "is_generated"⟩,
   ⟨"GenerationExpression", some "generation_expression"⟩,
   ⟨"IsUpdatable", some "is_updatable"⟩]

/-- SQL semantics of `x IN (w1, ..., wn)` on a nullable identifier: a
NULL is never a member; otherwise exact, case-sensitive string
equality against the list. This is the `WHERE ... IN ?` filter the
three listing queries ship to the catalog. -/
def inList (x : NullString) (w : List String) : Bool :=
  x.valid && w.contains x.string

/-- The rows of `SELECT * FROM information_schema.schemata WHERE
schema_name IN ?` over catalog contents `rows` with whitelist `w`
(`inspect.go` line 144). -/
def listSchemas (rows : List TSchemata) (w : List String) : List TSchemata :=
  rows.filter fun r => inList r.SchemaName w

/-- The rows of `SELECT * FROM information_schema.tables WHERE
table_schema IN ?` (`inspect.go` line 157). -/
def listTables (rows : List TTables) (w : List String) : List TTables :=
  rows.filter fun r => inList r.TableSchema w

/-- The rows of `SELECT * FROM information_schema.columns WHERE
table_schema IN ?` (`inspect.go` line 170). -/
def listColumns (rows : List TColumns) (w : List String) : List TColumns :=
  rows.filter fun r => inList r.TableSchema w

/-- The hardcoded schema whitelist of `inspect.go` lines 139-141. -/
def schemaWhitelist : List String := ["swipe"]

/-- The four queries `main` can issue, in source order. -/
inductive QueryId where
  | catalogName
  | schemata
  | tables
  | columns
deriving DecidableEq, Repr

/-- Logrus log levels used by `main` (`Infof`, `Warn`, `Debugf`, and
the level at which `Fatal` logs before exiting). -/
inductive LogLevel where
  | info
  | warn
  | debug
  | fatal
deriving DecidableEq, Repr

/-- Observable events of one run of `main`: opening the connection
with the connection string actually passed, issuing a query, handing a
line to the logging sink, closing the connection, exiting the process
via `os.Exit` (what `log.Fatal` does), or returning normally. -/
inductive Event where
  | openConn (connStr : String)
  | query (q : QueryId)
  | logLine (lvl : LogLevel) (msg : String)
  | closeConn
  | exitProcess (code : Nat)
  | ret
deriving DecidableEq, Repr

/-- The external world `main` runs against: the `-db` flag (absent
when omitted, so the default `""` applies), whether `dbr.Open` fails,
the outcome of the catalog-name query, error injection for each of the
three listing queries, and the catalog contents the successful listing
queries filter. -/
structure Env where
  dbFlag : Option String
  openErr : Option String
  catalogNameQ : Except String String
  schemataErr : Option String
  tablesErr : Option String
  columnsErr : Option String
  schemataRows : List TSchemata
  tablesRows : List TTables
  columnsRows : List TColumns

/-- The per-schema `log.Debugf("schema %s owned by %s", ...)` lines of
`inspect.go` lines 152-154. -/
def schemaDebugLines (l : List TSchemata) : List Event :=
  l.map fun v =>
    .logLine .debug ("schema " ++ v.SchemaName.string ++ " owned by " ++ v.SchemaOwner.string)

/-- The per-table `log.Debugf("table %s.%s type %s", ...)` lines of
`inspect.go` lines 165-167. -/
def tableDebugLines (l : List TTables) : List Event :=
  l.map fun v =>
    .logLine .debug ("table " ++ v.TableSchema.string ++ "." ++ v.TableName.string
      ++ " type " ++ v.TableType.string)

/-- The per-column `log.Debugf("column %s.%s.%s", ...)` lines of
`inspect.go` lines 178-180. -/
def columnDebugLines (l : List TColumns) : List Event :=
  l.map fun v =>
    .logLine .debug ("column " ++ v.TableSchema.string ++ "." ++ v.TableName.string
      ++ "." ++ v.ColumnName.string)

/-- What `log.Fatal(msg)` does: log at fatal level, then `os.Exit(1)`.
`os.Exit` terminates the process without running deferred calls, so no
`closeConn` event follows. -/
def fatalExit (msg : String) : List Event :=
  [.logLine .fatal msg, .exitProcess 1]

/-- The event trace of one run of `func main()` (`inspect.go` lines
114-181) against environment `e`. Mirrors the source control flow:
open the connection (fatal on error, before the `defer` is reached);
register `defer dbConn.Close()` (modelled by emitting `closeConn`
before every normal return, and not on `log.Fatal` paths, which exit
via `os.Exit`); resolve the catalog name; run the three whitelisted
listing queries in order, returning early with a warning when a stage
yields zero rows, and logging per-row debug summaries otherwise. -/
def run (e : Env) : List Event :=
  .openConn (e.dbFlag.getD "") ::
    match e.openErr with
    | some _ => fatalExit "Cannot connect to db"
    | none =>
      .query .catalogName ::
        match e.catalogNameQ with
        | .error _ => fatalExit "load database name"
        | .ok dbName =>
          .logLine .info ("db name: " ++ dbName) ::
            .query .schemata ::
              match e.schemataErr with
              | some _ => fatalExit "select schemas"
              | none =>
                if (listSchemas e.schemataRows schemaWhitelist).length = 0 then
                  [.logLine .warn "no schemas available", .closeConn, .ret]
                else
                  schemaDebugLines (listSchemas e.schemataRows schemaWhitelist) ++
                    .query .tables ::
                      match e.tablesErr with
                      | some _ => fatalExit "select tables"
                      | none =>
                        if (listTables e.tablesRows schemaWhitelist).length = 0 then
                          [.logLine .warn "no tables available", .closeConn, .ret]
                        else
                          tableDebugLines (listTables e.tablesRows schemaWhitelist) ++
                            .query .columns ::
                              match e.columnsErr with
                              | some _ => fatalExit "select columns"
                              | none =>
                                if (listColumns e.columnsRows schemaWhitelist).length = 0 then
                                  [.logLine .warn "no columns available", .closeConn, .ret]
                                else
                                  columnDebugLines
                                      (listColumns e.columnsRows schemaWhitelist) ++
                                    [.closeConn, .ret]

section RunShape

/-- Trace of a run whose `dbr.Open` fails: fatal log, process exit,
no deferred close. -/
theorem run_openErr (e : Env) (m : String) (h : e.openErr = some m) :
    run e = [.openConn (e.dbFlag.getD ""), .logLine .fatal "Cannot connect to db",
      .exitProcess 1] := by
  simp [run, h, fatalExit]

/-- Trace of a run whose catalog-name query fails. -/
theorem run_catalogNameErr (e : Env) (m : String) (h1 : e.openErr = none)
    (h2 : e.catalogNameQ = .error m) :
    run e = [.openConn (e.dbFlag.getD ""), .query .catalogName,
      .logLine .fatal "load database name", .exitProcess 1] := by
  simp [run, h1, h2, fatalExit]

/-- Trace of a run whose schemata query fails. -/
theorem run_schemataErr (e : Env) (name m : String) (h1 : e.openErr = none)
    (h2 : e.catalogNameQ = .ok name) (h3 : e.schemataErr = some m) :
    run e = [.openConn (e.dbFlag.getD ""), .query .catalogName,
      .logLine .info ("db name: " ++ name), .query .schemata,
      .logLine .fatal "select schemas", .exitProcess 1] := by
  simp [run, h1, h2, h3, fatalExit]

/-- Trace of a run whose schemata query succeeds with zero rows:
warning, deferred close, normal return. -/
theorem run_schemataEmpty (e : Env) (name : String) (h1 : e.openErr = none)
    (h2 : e.catalogNameQ = .ok name) (h3 : e.schemataErr = none)
    (h4 : listSchemas e.schemataRows schemaWhitelist = []) :
    run e = [.openConn (e.dbFlag.getD ""), .query .catalogName,
      .logLine .info ("db name: " ++ name), .query .schemata,
      .logLine .warn "no schemas available", .closeConn, .ret] := by
  simp [run, h1, h2, h3, h4, fatalExit]

/-- Trace of a run that reaches the tables query and fails there. -/
theorem run_tablesErr (e : Env) (name m : String) (h1 : e.openErr = none)
    (h2 : e.catalogNameQ = .ok name) (h3 : e.schemataErr = none)
    (h4 : listSchemas e.schemataRows schemaWhitelist ≠ [])
    (h5 : e.tablesErr = some m) :
    run e = [.openConn (e.dbFlag.getD ""), .query .catalogName,
        .logLine .info ("db name: " ++ name), .query .schemata] ++
      schemaDebugLines (listSchemas e.schemataRows schemaWhitelist) ++
      [.query .tables, .logLine .fatal "select tables", .exitProcess 1] := by
  simp [run, h1, h2, h3, h5, fatalExit, List.length_eq_zero, h4]

/-- Trace of a run whose tables query succeeds with zero rows. -/
theorem run_tablesEmpty (e : Env) (name : String) (h1 : e.openErr = none)
    (h2 : e.catalogNameQ = .ok name) (h3 : e.schemataErr = none)
    (h4 : listSchemas e.schemataRows schemaWhitelist ≠ [])
    (h5 : e.tablesErr = none)
    (h6 : listTables e.tablesRows schemaWhitelist = []) :
    run e = [.openConn (e.dbFlag.getD ""), .query .catalogName,
        .logLine .info ("db name: " ++ name), .query .schemata] ++
      schemaDebugLines (listSchemas e.schemataRows schemaWhitelist) ++
      [.query .tables, .logLine .warn "no tables available", .closeConn, .ret] := by
  simp [run, h1, h2, h3, h5, h6, fatalExit, List.length_eq_zero, h4]

/-- Trace of a run that reaches the columns query and fails there. -/
theorem run_columnsErr (e : Env) (name m : String) (h1 : e.openErr = none)
    (h2 : e.catalogNameQ = .ok name) (h3 : e.schemataErr = none)
    (h4 : listSchemas e.schemataRows schemaWhitelist ≠ [])
    (h5 : e.tablesErr = none)
    (h6 : listTables e.tablesRows schemaWhitelist ≠ [])
    (h7 : e.columnsErr = some m) :
    run e = [.openConn (e.dbFlag.getD ""), .query .catalogName,
        .logLine .info ("db name: " ++ name), .query .schemata] ++
      schemaDebugLines (listSchemas e.schemataRows schemaWhitelist) ++
      [.query .tables] ++
      tableDebugLines (listTables e.tablesRows schemaWhitelist) ++
      [.query .columns, .logLine .fatal "select columns", .exitProcess 1] := by
  simp [run, h1, h2, h3, h5, h7, fatalExit, List.length_eq_zero, h4, h6]

/-- Trace of a run whose columns query succeeds with zero rows. -/
theorem run_columnsEmpty (e : Env) (name : String) (h1 : e.openErr = none)
    (h2 : e.catalogNameQ = .ok name) (h3 : e.schemataErr = none)
    (h4 : listSchemas e.schemataRows schemaWhitelist ≠ [])
    (h5 : e.tablesErr = none)
    (h6 : listTables e.tablesRows schemaWhitelist ≠ [])
    (h7 : e.columnsErr = none)
    (h8 : listColumns e.columnsRows schemaWhitelist = []) :
    run e = [.openConn (e.dbFlag.getD ""), .query .catalogName,
        .logLine .info ("db name: " ++ name), .query .schemata] ++
      schemaDebugLines (listSchemas e.schemataRows schemaWhitelist) ++
      [.query .tables] ++
      tableDebugLines (listTables e.tablesRows schemaWhitelist) ++
      [.query .columns, .logLine .warn "no columns available", .closeConn, .ret] := by
  simp [run, h1, h2, h3, h5, h7, h8, fatalExit, List.length_eq_zero, h4, h6]

/-- Trace of a fully successful run with rows at every stage. -/
theorem run_complete (e : Env) (name : String) (h1 : e.openErr = none)
    (h2 : e.catalogNameQ = .ok name) (h3 : e.schemataErr = none)
    (h4 : listSchemas e.schemataRows schemaWhitelist ≠ [])
    (h5 : e.tablesErr = none)
    (h6 : listTables e.tablesRows schemaWhitelist ≠ [])
    (h7 : e.columnsErr = none)
    (h8 : listColumns e.columnsRows schemaWhitelist ≠ []) :
    run e = [.openConn (e.dbFlag.getD ""), .query .catalogName,
        .logLine .info ("db name: " ++ name), .query .schemata] ++
      schemaDebugLines (listSchemas e.schemataRows schemaWhitelist) ++
      [.query .tables] ++
      tableDebugLines (listTables e.tablesRows schemaWhitelist) ++
      [.query .columns] ++
      columnDebugLines (listColumns e.columnsRows schemaWhitelist) ++
      [.closeConn, .ret] := by
  simp [run, h1, h2, h3, h5, h7, fatalExit, List.length_eq_zero, h4, h6, h8]

end RunShape

/-- Recognizes query events in a trace. -/
def isQuery : Event → Bool
  | .query _ => true
  | _ => false

section QueryHelpers

theorem filter_isQuery_schemaDebug (l : List TSchemata) :
    (schemaDebugLines l).filter isQuery = [] := by
  induction l with
  | nil => rfl
  | cons a t ih => simp [schemaDebugLines, List.filter_cons, isQuery, ih]

theorem filter_isQuery_tableDebug (l : List TTables) :
    (tableDebugLines l).filter isQuery = [] := by
  induction l with
  | nil => rfl
  | cons a t ih => simp [tableDebugLines, List.filter_cons, isQuery, ih]

theorem filter_isQuery_columnDebug (l : List TColumns) :
    (columnDebugLines l).filter isQuery = [] := by
  induction l with
  | nil => rfl
  | cons a t ih => simp [columnDebugLines, List.filter_cons, isQuery, ih]

/-- Every run issues its queries as a prefix of the fixed order
catalog-name, schemata, tables, columns. -/
theorem run_queries (e : Env) :
    (run e).filter isQuery ∈
      [([] : List Event),
       [.query .catalogName],
       [.query .catalogName, .query .schemata],
       [.query .catalogName, .query .schemata, .query .tables],
       [.query .catalogName, .query .schemata, .query .tables, .query .columns]] := by
  rcases ho : e.openErr with _ | m
  · rcases hc : e.catalogNameQ with m | name
    · rw [run_catalogNameErr e m ho hc]
      simp [List.filter_cons, isQuery]
    · rcases hs : e.schemataErr with _ | m
      · by_cases h4 : listSchemas e.schemataRows schemaWhitelist = []
        · rw [run_schemataEmpty e name ho hc hs h4]
          simp [List.filter_cons, isQuery]
        · rcases ht : e.tablesErr with _ | m
          · by_cases h6 : listTables e.tablesRows schemaWhitelist = []
            · rw [run_tablesEmpty e name ho hc hs h4 ht h6]
              simp [List.filter_cons, List.filter_append,
                filter_isQuery_schemaDebug, isQuery]
            · rcases hcol : e.columnsErr with _ | m
              · by_cases h8 : listColumns e.columnsRows schemaWhitelist = []
                · rw [run_columnsEmpty e name ho hc hs h4 ht h6 hcol h8]
                  simp [List.filter_cons, List.filter_append,
                    filter_isQuery_schemaDebug, filter_isQuery_tableDebug, isQuery]
                · rw [run_complete e name ho hc hs h4 ht h6 hcol h8]
                  simp [List.filter_cons, List.filter_append,
                    filter_isQuery_schemaDebug, filter_isQuery_tableDebug,
                    filter_isQuery_columnDebug, isQuery]
              · rw [run_columnsErr e name m ho hc hs h4 ht h6 hcol]
                simp [List.filter_cons, List.filter_append,
                  filter_isQuery_schemaDebug, filter_isQuery_tableDebug, isQuery]
          · rw [run_tablesErr e name m ho hc hs h4 ht]
            simp [List.filter_cons, List.filter_append,
              filter_isQuery_schemaDebug, isQuery]
      · rw [run_schemataErr e name m ho hc hs]
        simp [List.filter_cons, isQuery]
  · rw [run_openErr e m ho]
    simp [List.filter_cons, isQuery]

end QueryHelpers

/-- Claim C1: whitelist filtering in ListSchemas (and likewise
ListTables, ListColumns) is exact-string, case-sensitive membership: a
row appears in the result iff it is a catalog row whose (non-NULL)
schema name is literally an element of the whitelist; in particular,
with the hardcoded whitelist `swipe`, schemas named `swipe2` or
`Swipe` never appear in the result. -/
theorem C1_whitelist_exact_membership :
    (∀ (rows : List TSchemata) (w : List String) (r : TSchemata),
        r ∈ listSchemas rows w ↔
          r ∈ rows ∧ r.SchemaName.valid = true ∧ r.SchemaName.string ∈ w) ∧
    (∀ (rows : List TTables) (w : List String) (r : TTables),
        r ∈ listTables rows w ↔
          r ∈ rows ∧ r.TableSchema.valid = true ∧ r.TableSchema.string ∈ w) ∧
    (∀ (rows : List TColumns) (w : List String) (r : TColumns),
        r ∈ listColumns rows w ↔
          r ∈ rows ∧ r.TableSchema.valid = true ∧ r.TableSchema.string ∈ w) ∧
    (∀ rows : List TSchemata,
        ((listSchemas rows schemaWhitelist).all
          fun r => r.SchemaName.string != "swipe2" && r.SchemaName.string != "Swipe")
          = true) := by
  refine ⟨?_, ?_, ?_, ?_⟩
  · intro rows w r
    simp [listSchemas, List.mem_filter, inList, and_assoc]
  · intro rows w r
    simp [listTables, List.mem_filter, inList, and_assoc]
  · intro rows w r
    simp [listColumns, List.mem_filter, inList, and_assoc]
  · intro rows
    rw [List.all_eq_true]
    intro r hr
    have hm := (List.mem_filter.mp hr).2
    simp [inList, schemaWhitelist] at hm
    rw [hm.2]
    decide

/-- Claim C3: decoding SQL NULL into any of the five nullable domain
types yields a value whose presence flag reports null, decoding any
non-null value yields a value reporting non-null, and the non-null
payload is preserved exactly (NULL is never replaced by a zero value,
and values are never dropped). -/
theorem C3_nullable_decode_preserves_null :
    (∀ v : Option Int, NullInt64.isNull (CardinalNumber.scan v) = v.isNone) ∧
    (∀ n : Int, (CardinalNumber.scan (some n)).int64 = n) ∧
    (∀ v : Option String, NullString.isNull (CharacterData.scan v) = v.isNone) ∧
    (∀ s : String, (CharacterData.scan (some s)).string = s) ∧
    (∀ v : Option String, NullString.isNull (SQLIdentifier.scan v) = v.isNone) ∧
    (∀ s : String, (SQLIdentifier.scan (some s)).string = s) ∧
    (∀ v : Option Int, NullTime.isNull (TimeStamp.scan v) = v.isNone) ∧
    (∀ t : Int, (TimeStamp.scan (some t)).time = t) ∧
    (∀ v : Option String, NullString.isNull (YesOrNo.scan v) = v.isNone) ∧
    (∀ s : String, (YesOrNo.scan (some s)).string = s) := by
  refine ⟨?_, ?_, ?_, ?_, ?_, ?_, ?_, ?_, ?_, ?_⟩ <;>
    intro v <;> first | rfl | (cases v <;> rfl)

/-- Claim C4: every run issues the queries sequentially in the fixed
order catalog name, then schemata, then tables, then columns: the
query events of the trace always form a prefix of that order. -/
theorem C4_query_order (e : Env) :
    (run e).filter isQuery ∈
      [([] : List Event),
       [.query .catalogName],
       [.query .catalogName, .query .schemata],
       [.query .catalogName, .query .schemata, .query .tables],
       [.query .catalogName, .query .schemata, .query .tables, .query .columns]] :=
  run_queries e

section SampleData

/-- A present (non-NULL) nullable string. -/
def presentStr (s : String) : NullString := ⟨s, true⟩

/-- An absent (SQL NULL) nullable string. -/
def absentStr : NullString := ⟨"", false⟩

/-- An absent (SQL NULL) nullable integer. -/
def absentInt : NullInt64 := ⟨0, false⟩

/-- A concrete `information_schema.schemata` row for schema `swipe`. -/
def sampleSchema : TSchemata :=
  ⟨presentStr "inspector", presentStr "swipe", presentStr "owner1",
   absentStr, absentStr, absentStr, absentStr⟩

/-- A concrete `information_schema.tables` row for `swipe.users`. -/
def sampleTable : TTables :=
  ⟨presentStr "inspector", presentStr "swipe", presentStr "users",
   presentStr "BASE TABLE", absentStr, absentStr, absentStr, absentStr,
   absentStr, presentStr "YES", presentStr "NO", absentStr⟩

/-- A concrete `information_schema.columns` row for `swipe.users.id`
at ordinal position 1. -/
def sampleColumn : TColumns where
  TableCatalog := presentStr "inspector"
  TableSchema := presentStr "swipe"
  TableName := presentStr "users"
  ColumnName := presentStr "id"
  OrdinalPosition := ⟨1, true⟩
  ColumnDefault := absentStr
  IsNullable := presentStr "NO"
  DataType := presentStr "integer"
  CharacterMaximumLength := absentInt
  CharacterOctetLength := absentInt
  NumericPrecision := ⟨32, true⟩
  NumericPrecisionRadix := ⟨2, true⟩
  NumericScale := ⟨0, true⟩
  DatetimePrecision := absentInt
  IntervalType := absentStr
  IntervalPrecision := absentInt
  CharacterSetCatalog := absentStr
  CharacterSetSchema := absentStr
  CharacterSetName := absentStr
  CollationCatalog := absentStr
  CollationSchema := absentStr
  CollationName := absentStr
  DomainCatalog := absentStr
  DomainSchema := absentStr
  DomainName := absentStr
  UdtCatalog := presentStr "inspector"
  UdtSchema := presentStr "pg_catalog"
  UdtName := presentStr "int4"
  ScopeCatalog := absentStr
  ScopeSchema := absentStr
  ScopeName := absentStr
  MaximumCardinality := absentInt
  DtdIdentifier := presentStr "1"
  IsSelfReferencing := presentStr "NO"
  IsIdentity := presentStr "NO"
  IdentityGeneration := absentStr
  IdentityStart := absentStr
  IdentityIncrement := absentStr
  IdentityMaximum := absentStr
  IdentityMinimum := absentStr
  IdentityCycle := presentStr "NO"
  IsGenerated := presentStr "NEVER"
  GenerationExpression := absentStr
  IsUpdatable := presentStr "YES"

/-- A schemata row whose name is not on the whitelist. -/
def otherSchema : TSchemata :=
  ⟨presentStr "inspector", presentStr "swipe2", presentStr "owner2",
   absentStr, absentStr, absentStr, absentStr⟩

/-- Environment of a fully successful run with one schema, one table
and one column on the whitelist. -/
def envComplete : Env where
  dbFlag := some "dbname=inspector"
  openErr := none
  catalogNameQ := .ok "inspector"
  schemataErr := none
  tablesErr := none
  columnsErr := none
  schemataRows := [sampleSchema]
  tablesRows := [sampleTable]
  columnsRows := [sampleColumn]

/-- Environment whose catalog holds no whitelisted schema. -/
def envNoSchemas : Env where
  dbFlag := some "dbname=inspector"
  openErr := none
  catalogNameQ := .ok "inspector"
  schemataErr := none
  tablesErr := none
  columnsErr := none
  schemataRows := [otherSchema]
  tablesRows := [sampleTable]
  columnsRows := [sampleColumn]

/-- Environment whose catalog-name query fails. -/
def envCatalogNameErr : Env where
  dbFlag := some "dbname=inspector"
  openErr := none
  catalogNameQ := .error "permission denied"
  schemataErr := none
  tablesErr := none
  columnsErr := none
  schemataRows := [sampleSchema]
  tablesRows := [sampleTable]
  columnsRows := [sampleColumn]

/-- Environment whose schemata query fails. -/
def envSchemataErr : Env where
  dbFlag := some "dbname=inspector"
  openErr := none
  catalogNameQ := .ok "inspector"
  schemataErr := some "syntax error"
  tablesErr := none
  columnsErr := none
  schemataRows := [sampleSchema]
  tablesRows := [sampleTable]
  columnsRows := [sampleColumn]

/-- Environment where `dbr.Open` fails and the `-db` flag is omitted. -/
def envOpenErr : Env where
  dbFlag := none
  openErr := some "connection refused"
  catalogNameQ := .ok "inspector"
  schemataErr := none
  tablesErr := none
  columnsErr := none
  schemataRows := [sampleSchema]
  tablesRows := [sampleTable]
  columnsRows := [sampleColumn]

end SampleData

/-- Claim C2: if any of the three listing stages returns zero rows
(having been reached), a warning is logged and all remaining stages
are skipped without raising an error: the run returns normally, never
exits fatally, and, when the schemata stage is empty, never issues the
tables or columns queries. -/
theorem C2_empty_result_short_circuit (e : Env) (name : String)
    (h1 : e.openErr = none) (h2 : e.catalogNameQ = .ok name) :
    (e.schemataErr = none → listSchemas e.schemataRows schemaWhitelist = [] →
        Event.logLine .warn "no schemas available" ∈ run e ∧
        Event.query .tables ∉ run e ∧ Event.query .columns ∉ run e ∧
        Event.ret ∈ run e ∧ Event.exitProcess 1 ∉ run e) ∧
    (e.schemataErr = none → listSchemas e.schemataRows schemaWhitelist ≠ [] →
      e.tablesErr = none → listTables e.tablesRows schemaWhitelist = [] →
        Event.logLine .warn "no tables available" ∈ run e ∧
        Event.query .columns ∉ run e ∧
        Event.ret ∈ run e ∧ Event.exitProcess 1 ∉ run e) ∧
    (e.schemataErr = none → listSchemas e.schemataRows schemaWhitelist ≠ [] →
      e.tablesErr = none → listTables e.tablesRows schemaWhitelist ≠ [] →
      e.columnsErr = none → listColumns e.columnsRows schemaWhitelist = [] →
        Event.logLine .warn "no columns available" ∈ run e ∧
        Event.ret ∈ run e ∧ Event.exitProcess 1 ∉ run e) := by
  refine ⟨?_, ?_, ?_⟩
  · intro h3 h4
    rw [run_schemataEmpty e name h1 h2 h3 h4]
    simp
  · intro h3 h4 h5 h6
    rw [run_tablesEmpty e name h1 h2 h3 h4 h5 h6]
    simp [schemaDebugLines]
  · intro h3 h4 h5 h6 h7 h8
    rw [run_columnsEmpty e name h1 h2 h3 h4 h5 h6 h7 h8]
    simp [schemaDebugLines, tableDebugLines]

/-- Concrete run of the empty-schemas short-circuit: with only the
non-whitelisted schema `swipe2` in the catalog, the run warns and
never issues the tables or columns query. -/
theorem C2_empty_result_short_circuit_witness :
    Event.logLine .warn "no schemas available" ∈ run envNoSchemas ∧
    Event.query .tables ∉ run envNoSchemas ∧
    Event.query .columns ∉ run envNoSchemas ∧
    Event.exitProcess 1 ∉ run envNoSchemas := by
  have h := (C2_empty_result_short_circuit envNoSchemas "inspector" rfl rfl).1
    rfl (by decide)
  exact ⟨h.1, h.2.1, h.2.2.1, h.2.2.2.2⟩

/-- Claim C7 counterexample: `TSchemata.SchemaName` carries no `db:`
struct tag (nor do five other `TSchemata` fields), so not every field
of every catalog record type carries an explicit source-column tag. -/
theorem C7_counterexample :
    FieldSpec.mk "SchemaName" none ∈ tSchemataFields ∧
    (tSchemataFields.all fun f => f.dbTag.isSome) = false := by
  decide

/-- Claim C7 (amended): every field of `TTables` and `TColumns`
carries an explicit `db:` tag (the `TColumns` list running from
`table_catalog` through `is_updatable` over all 44 fields), but in
`TSchemata` only `CatalogName` is tagged (`catalog_name`); its other
six fields rely on the field-name-to-column-name convention. -/
theorem C7_explicit_tags_amended :
    (tTablesFields.all fun f => f.dbTag.isSome) = true ∧
    (tColumnsFields.all fun f => f.dbTag.isSome) = true ∧
    tSchemataFields.filter (fun f => f.dbTag.isSome) =
      [⟨"CatalogName", some "catalog_name"⟩] ∧
    tColumnsFields.length = 44 ∧
    (tColumnsFields.filterMap fun f => f.dbTag).head? = some "table_catalog" ∧
    (tColumnsFields.filterMap fun f => f.dbTag).getLast? = some "is_updatable" := by
  decide

/-- Claim C5: a failing query is fatal. Each query is issued at most
once (no retry), and if any of the four queries errors, the trace is
exactly the events leading up to that query followed by the fatal log
and the process exit: nothing further is emitted, no later stage runs,
and the rows fetched so far die with the process. -/
theorem C5_query_error_fatal (e : Env) :
    (∀ q : QueryId, (run e).count (.query q) ≤ 1) ∧
    (∀ m, e.openErr = none → e.catalogNameQ = .error m →
      run e = [.openConn (e.dbFlag.getD ""), .query .catalogName,
        .logLine .fatal "load database name", .exitProcess 1]) ∧
    (∀ name m, e.openErr = none → e.catalogNameQ = .ok name →
      e.schemataErr = some m →
      run e = [.openConn (e.dbFlag.getD ""), .query .catalogName,
        .logLine .info ("db name: " ++ name), .query .schemata,
        .logLine .fatal "select schemas", .exitProcess 1]) ∧
    (∀ name m, e.openErr = none → e.catalogNameQ = .ok name →
      e.schemataErr = none → listSchemas e.schemataRows schemaWhitelist ≠ [] →
      e.tablesErr = some m →
      run e = [.openConn (e.dbFlag.getD ""), .query .catalogName,
          .logLine .info ("db name: " ++ name), .query .schemata] ++
        schemaDebugLines (listSchemas e.schemataRows schemaWhitelist) ++
        [.query .tables, .logLine .fatal "select tables", .exitProcess 1]) ∧
    (∀ name m, e.openErr = none → e.catalogNameQ = .ok name →
      e.schemataErr = none → listSchemas e.schemataRows schemaWhitelist ≠ [] →
      e.tablesErr = none → listTables e.tablesRows schemaWhitelist ≠ [] →
      e.columnsErr = some m →
      run e = [.openConn (e.dbFlag.getD ""), .query .catalogName,
          .logLine .info ("db name: " ++ name), .query .schemata] ++
        schemaDebugLines (listSchemas e.schemataRows schemaWhitelist) ++
        [.query .tables] ++
        tableDebugLines (listTables e.tablesRows schemaWhitelist) ++
        [.query .columns, .logLine .fatal "select columns", .exitProcess 1]) := by
  refine ⟨?_,
    fun m h1 h2 => run_catalogNameErr e m h1 h2,
    fun name m h1 h2 h3 => run_schemataErr e name m h1 h2 h3,
    fun name m h1 h2 h3 h4 h5 => run_tablesErr e name m h1 h2 h3 h4 h5,
    fun name m h1 h2 h3 h4 h5 h6 h7 => run_columnsErr e name m h1 h2 h3 h4 h5 h6 h7⟩
  intro q
  have hq : (run e).count (.query q) = ((run e).filter isQuery).count (.query q) :=
    (List.count_filter rfl).symm
  rw [hq]
  have h := run_queries e
  simp only [List.mem_cons, List.mem_singleton, List.not_mem_nil, or_false] at h
  rcases h with h | h | h | h | h <;> rw [h] <;> cases q <;> decide

/-- Concrete failing run: the schemata query errors and the trace ends
immediately with the fatal log and the exit, the query never reissued. -/
theorem C5_query_error_fatal_witness :
    run envSchemataErr = [.openConn "dbname=inspector", .query .catalogName,
      .logLine .info "db name: inspector", .query .schemata,
      .logLine .fatal "select schemas", .exitProcess 1] ∧
    (run envSchemataErr).count (.query .schemata) ≤ 1 := by
  have h := C5_query_error_fatal envSchemataErr
  refine ⟨?_, h.1 .schemata⟩
  have ht := h.2.2.1 "inspector" "syntax error" rfl rfl rfl
  simpa using ht

/-- Claim C6 counterexample: a run whose catalog-name query fails
exits the process without ever emitting `closeConn` — `log.Fatal`
exits via `os.Exit`, which skips the deferred `dbConn.Close()`. -/
theorem C6_counterexample :
    Event.exitProcess 1 ∈ run envCatalogNameErr ∧
    Event.closeConn ∉ run envCatalogNameErr := by
  decide

/-- Claim C6 (amended): the connection is closed before exit on every
normal-return path (full completion and each empty-result early
return), but on every fatal connection or query error path the process
exits via `os.Exit` without running the deferred `Close`. -/
theorem C6_close_only_on_normal_return (e : Env) :
    (Event.ret ∈ run e → Event.closeConn ∈ run e) ∧
    (Event.exitProcess 1 ∈ run e → Event.closeConn ∉ run e) := by
  rcases ho : e.openErr with _ | m
  · rcases hc : e.catalogNameQ with m | name
    · rw [run_catalogNameErr e m ho hc]
      simp
    · rcases hs : e.schemataErr with _ | m
      · by_cases h4 : listSchemas e.schemataRows schemaWhitelist = []
        · rw [run_schemataEmpty e name ho hc hs h4]
          simp
        · rcases ht : e.tablesErr with _ | m
          · by_cases h6 : listTables e.tablesRows schemaWhitelist = []
            · rw [run_tablesEmpty e name ho hc hs h4 ht h6]
              simp [schemaDebugLines]
            · rcases hcol : e.columnsErr with _ | m
              · by_cases h8 : listColumns e.columnsRows schemaWhitelist = []
                · rw [run_columnsEmpty e name ho hc hs h4 ht h6 hcol h8]
                  simp [schemaDebugLines, tableDebugLines]
                · rw [run_complete e name ho hc hs h4 ht h6 hcol h8]
                  simp [schemaDebugLines, tableDebugLines, columnDebugLines]
              · rw [run_columnsErr e name m ho hc hs h4 ht h6 hcol]
                simp [schemaDebugLines, tableDebugLines]
          · rw [run_tablesErr e name m ho hc hs h4 ht]
            simp [schemaDebugLines]
      · rw [run_schemataErr e name m ho hc hs]
        simp
  · rw [run_openErr e m ho]
    simp

/-- Concrete runs of the amended close property: the successful run
closes the connection; the failing catalog-name run never does. -/
theorem C6_close_only_on_normal_return_witness :
    Event.closeConn ∈ run envComplete ∧
    Event.closeConn ∉ run envCatalogNameErr :=
  ⟨(C6_close_only_on_normal_return envComplete).1 (by decide),
   (C6_close_only_on_normal_return envCatalogNameErr).2 (by decide)⟩

section LogHelpers

/-- A per-schema debug line of a reached, nonempty schemata stage is
in the trace, whatever happens downstream. -/
theorem mem_run_of_mem_schemaDebug (e : Env) (name : String) (x : Event)
    (h1 : e.openErr = none) (h2 : e.catalogNameQ = .ok name)
    (h3 : e.schemataErr = none)
    (h4 : listSchemas e.schemataRows schemaWhitelist ≠ [])
    (hx : x ∈ schemaDebugLines (listSchemas e.schemataRows schemaWhitelist)) :
    x ∈ run e := by
  rcases ht : e.tablesErr with _ | m
  · by_cases h6 : listTables e.tablesRows schemaWhitelist = []
    · rw [run_tablesEmpty e name h1 h2 h3 h4 ht h6]
      simp only [List.mem_append]
      tauto
    · rcases hcol : e.columnsErr with _ | m
      · by_cases h8 : listColumns e.columnsRows schemaWhitelist = []
        · rw [run_columnsEmpty e name h1 h2 h3 h4 ht h6 hcol h8]
          simp only [List.mem_append]
          tauto
        · rw [run_complete e name h1 h2 h3 h4 ht h6 hcol h8]
          simp only [List.mem_append]
          tauto
      · rw [run_columnsErr e name m h1 h2 h3 h4 ht h6 hcol]
        simp only [List.mem_append]
        tauto
  · rw [run_tablesErr e name m h1 h2 h3 h4 ht]
    simp only [List.mem_append]
    tauto

/-- A per-table debug line of a reached, nonempty tables stage is in
the trace. -/
theorem mem_run_of_mem_tableDebug (e : Env) (name : String) (x : Event)
    (h1 : e.openErr = none) (h2 : e.catalogNameQ = .ok name)
    (h3 : e.schemataErr = none)
    (h4 : listSchemas e.schemataRows schemaWhitelist ≠ [])
    (h5 : e.tablesErr = none)
    (h6 : listTables e.tablesRows schemaWhitelist ≠ [])
    (hx : x ∈ tableDebugLines (listTables e.tablesRows schemaWhitelist)) :
    x ∈ run e := by
  rcases hcol : e.columnsErr with _ | m
  · by_cases h8 : listColumns e.columnsRows schemaWhitelist = []
    · rw [run_columnsEmpty e name h1 h2 h3 h4 h5 h6 hcol h8]
      simp only [List.mem_append]
      tauto
    · rw [run_complete e name h1 h2 h3 h4 h5 h6 hcol h8]
      simp only [List.mem_append]
      tauto
  · rw [run_columnsErr e name m h1 h2 h3 h4 h5 h6 hcol]
    simp only [List.mem_append]
    tauto

/-- A per-column debug line of a reached, nonempty columns stage is in
the trace. -/
theorem mem_run_of_mem_columnDebug (e : Env) (name : String) (x : Event)
    (h1 : e.openErr = none) (h2 : e.catalogNameQ = .ok name)
    (h3 : e.schemataErr = none)
    (h4 : listSchemas e.schemataRows schemaWhitelist ≠ [])
    (h5 : e.tablesErr = none)
    (h6 : listTables e.tablesRows schemaWhitelist ≠ [])
    (h7 : e.columnsErr = none)
    (hx : x ∈ columnDebugLines (listColumns e.columnsRows schemaWhitelist)) :
    x ∈ run e := by
  have h8 : listColumns e.columnsRows schemaWhitelist ≠ [] := by
    intro h0
    rw [h0] at hx
    exact List.not_mem_nil x hx
  rw [run_complete e name h1 h2 h3 h4 h5 h6 h7 h8]
  simp only [List.mem_append]
  tauto

end LogHelpers

/-- Claim C8: every run that resolves the catalog name logs it, and
each row returned by a reached listing stage is reported with its
per-row summary line: `schema <name> owned by <owner>`,
`table <schema>.<table> type <kind>`, `column <schema>.<table>.<column>`
(issued to the logging sink at debug level). -/
theorem C8_log_reporting (e : Env) (name : String)
    (h1 : e.openErr = none) (h2 : e.catalogNameQ = .ok name) :
    Event.logLine .info ("db name: " ++ name) ∈ run e ∧
    (e.schemataErr = none →
      ∀ v ∈ listSchemas e.schemataRows schemaWhitelist,
        Event.logLine .debug
          ("schema " ++ v.SchemaName.string ++ " owned by " ++ v.SchemaOwner.string)
          ∈ run e) ∧
    (e.schemataErr = none → listSchemas e.schemataRows schemaWhitelist ≠ [] →
      e.tablesErr = none →
      ∀ v ∈ listTables e.tablesRows schemaWhitelist,
        Event.logLine .debug
          ("table " ++ v.TableSchema.string ++ "." ++ v.TableName.string
            ++ " type " ++ v.TableType.string) ∈ run e) ∧
    (e.schemataErr = none → listSchemas e.schemataRows schemaWhitelist ≠ [] →
      e.tablesErr = none → listTables e.tablesRows schemaWhitelist ≠ [] →
      e.columnsErr = none →
      ∀ v ∈ listColumns e.columnsRows schemaWhitelist,
        Event.logLine .debug
          ("column " ++ v.TableSchema.string ++ "." ++ v.TableName.string
            ++ "." ++ v.ColumnName.string) ∈ run e) := by
  refine ⟨?_, ?_, ?_, ?_⟩
  · simp only [run, h1, h2]
    simp
  · intro h3 v hv
    have h4 : listSchemas e.schemataRows schemaWhitelist ≠ [] := by
      intro h0
      rw [h0] at hv
      exact List.not_mem_nil v hv
    exact mem_run_of_mem_schemaDebug e name _ h1 h2 h3 h4
      (List.mem_map_of_mem _ hv)
  · intro h3 h4 h5 v hv
    have h6 : listTables e.tablesRows schemaWhitelist ≠ [] := by
      intro h0
      rw [h0] at hv
      exact List.not_mem_nil v hv
    exact mem_run_of_mem_tableDebug e name _ h1 h2 h3 h4 h5 h6
      (List.mem_map_of_mem _ hv)
  · intro h3 h4 h5 h6 h7 v hv
    exact mem_run_of_mem_columnDebug e name _ h1 h2 h3 h4 h5 h6 h7
      (List.mem_map_of_mem _ hv)

/-- Concrete successful run: the catalog-name line and all three
per-row summary lines appear in the trace. -/
theorem C8_log_reporting_witness :
    Event.logLine .info ("db name: " ++ "inspector") ∈ run envComplete ∧
    Event.logLine .debug
      ("schema " ++ "swipe" ++ " owned by " ++ "owner1") ∈ run envComplete ∧
    Event.logLine .debug
      ("table " ++ "swipe" ++ "." ++ "users" ++ " type " ++ "BASE TABLE")
      ∈ run envComplete ∧
    Event.logLine .debug
      ("column " ++ "swipe" ++ "." ++ "users" ++ "." ++ "id") ∈ run envComplete := by
  have h := C8_log_reporting envComplete "inspector" rfl rfl
  exact ⟨h.1,
    h.2.1 rfl sampleSchema (by decide),
    h.2.2.1 rfl (by decide) rfl sampleTable (by decide),
    h.2.2.2 rfl (by decide) rfl (by decide) rfl sampleColumn (by decide)⟩

/-- The (catalog, schema, table) key of a `TColumns` row. -/
def colKey (r : TColumns) : NullString × NullString × NullString :=
  (r.TableCatalog, r.TableSchema, r.TableName)

/-- The rows of `l` sharing the key `k`. -/
def sameKeyRows (l : List TColumns) (k : NullString × NullString × NullString) :
    List TColumns :=
  l.filter fun r => decide (colKey r = k)

/-- The information-schema ordinal invariant: for every (catalog,
schema, table) key, the multiset of `OrdinalPosition` values of the
rows sharing that key is exactly 1..N with no gaps and no duplicates,
N being the number of those rows. -/
def ordinalsContiguous (l : List TColumns) : Prop :=
  ∀ k, List.Perm ((sameKeyRows l k).map fun r => r.OrdinalPosition.int64)
    ((List.range (sameKeyRows l k).length).map fun i => (i : Int) + 1)

/-- Filtering on the key and on the schema together is all or
nothing, because every row with key `k` has schema `k.2.1`. -/
theorem filter_key_and_schema (t : List TColumns) (w : List String)
    (k : NullString × NullString × NullString) :
    (t.filter fun r => decide (colKey r = k) && inList r.TableSchema w) =
      if inList k.2.1 w then t.filter (fun r => decide (colKey r = k)) else [] := by
  induction t with
  | nil => simp
  | cons a t ih =>
    by_cases hk : colKey a = k
    · have hsch : k.2.1 = a.TableSchema := by rw [← hk]; rfl
      by_cases hw : inList k.2.1 w
      · have hw2 : inList a.TableSchema w = true := by rw [← hsch]; exact hw
        simp [List.filter_cons, hk, hw, hw2, ih]
      · have hw2 : inList a.TableSchema w = false := by
          rw [← hsch]
          simpa using hw
        simp [List.filter_cons, hk, hw, hw2, ih]
    · simp [List.filter_cons, hk, ih]

/-- The whitelist filter of `listColumns` keeps a key's rows all or
nothing: a key whose schema is whitelisted keeps every one of its
rows, any other key keeps none. -/
theorem sameKeyRows_listColumns (rows : List TColumns) (w : List String)
    (k : NullString × NullString × NullString) :
    sameKeyRows (listColumns rows w) k =
      if inList k.2.1 w then sameKeyRows rows k else [] := by
  have h1 : sameKeyRows (listColumns rows w) k =
      rows.filter fun r => decide (colKey r = k) && inList r.TableSchema w := by
    simp [sameKeyRows, listColumns, List.filter_filter]
  rw [h1, filter_key_and_schema rows w k]
  rfl

/-- Claim C9: whenever the catalog rows satisfy the information-schema
ordinal invariant, so do the rows returned by `ListColumns`: for every
(catalog, schema, table) key, the `OrdinalPosition` values of the
returned rows sharing it are exactly 1..N with no gaps or duplicates.
The whitelist filter keys on the schema alone, so it never splits a
table's column set. -/
theorem C9_ordinal_contiguous (rows : List TColumns) (w : List String)
    (h : ordinalsContiguous rows) : ordinalsContiguous (listColumns rows w) := by
  intro k
  rw [sameKeyRows_listColumns rows w k]
  by_cases hw : inList k.2.1 w
  · rw [if_pos hw]
    exact h k
  · rw [if_neg hw]
    simp

/-- The one-row catalog `swipe.users.id` at ordinal 1 satisfies the
ordinal invariant. -/
theorem ordinalsContiguous_sampleColumn : ordinalsContiguous [sampleColumn] := by
  intro k
  by_cases hk : colKey sampleColumn = k
  · have hs : sameKeyRows [sampleColumn] k = [sampleColumn] := by
      simp [sameKeyRows, List.filter_cons, hk]
    rw [hs]
    decide
  · have hs : sameKeyRows [sampleColumn] k = [] := by
      simp [sameKeyRows, List.filter_cons, hk]
    rw [hs]
    decide

/-- Concrete run of the ordinal-invariant preservation at the one-row
catalog. -/
theorem C9_ordinal_contiguous_witness :
    ordinalsContiguous [sampleColumn] ∧
    ordinalsContiguous (listColumns [sampleColumn] schemaWhitelist) :=
  ⟨ordinalsContiguous_sampleColumn,
   C9_ordinal_contiguous [sampleColumn] schemaWhitelist ordinalsContiguous_sampleColumn⟩

/-- Claim C10: the `-db` flag is not validated: every run opens the
connection with exactly the flag's value, the empty-string default
standing in when the flag is omitted, and a failing open surfaces only
as the fatal connection error (the trace holds no other event — in
particular no usage or argument error). -/
theorem C10_no_flag_validation (e : Env) :
    (run e).head? = some (.openConn (e.dbFlag.getD "")) ∧
    (e.dbFlag = none → (run e).head? = some (.openConn "")) ∧
    (∀ m, e.openErr = some m →
      run e = [.openConn (e.dbFlag.getD ""),
        .logLine .fatal "Cannot connect to db", .exitProcess 1]) := by
  refine ⟨?_, ?_, fun m h => run_openErr e m h⟩
  · simp [run]
  · intro h
    simp [run, h]

/-- Concrete run with the flag omitted and the open failing: the empty
default reaches the open call and the run is exactly the fatal
connection-error trace. -/
theorem C10_no_flag_validation_witness :
    (run envOpenErr).head? = some (.openConn "") ∧
    run envOpenErr = [.openConn "", .logLine .fatal "Cannot connect to db",
      .exitProcess 1] := by
  have h := C10_no_flag_validation envOpenErr
  refine ⟨h.2.1 rfl, ?_⟩
  have ht := h.2.2 "connection refused" rfl
  simpa using ht

end PgInspector
